import Mathlib

/-!
Verification of the Kron photometry pipeline
(`src/KronPhotometry.cc` of LSST `meas_extensions_photometryKron`).

The C++ source is shallowly embedded below.  Machine `double`s are modelled
as exact rationals; the transcendental library calls that the source makes
(`::sqrt`, `::hypot`, `::cos`, `::sin` and the constants `sqrt(pi/2)` and
`sqrt(2)`) are collected in a `MathModel` record of uninterpreted functions,
since their numerics belong to the external math library, not to this
repository.  Pixel access, footprint construction, image smoothing and the
sinc-aperture integrator are external collaborators of this module; they are
modelled as oracle parameters (a per-iteration outcome for the moment
functor, a pixel list and a sinc result for the flux integrator).

All control flow, flag bookkeeping, exception routing and the arithmetic
performed by this file itself (rotation into the ellipse frame, accumulation
of the moment sums, radius updates, scaling of ellipse axes) are translated
statement by statement from the source.
-/

namespace KronPhotometry

/-- External math library calls used by the source, kept uninterpreted. -/
structure MathModel where
  sqrtQ : ℚ → ℚ
  hypotQ : ℚ → ℚ → ℚ
  sqrtHalfPi : ℚ
  root2 : ℚ

/-- `afw::geom::ellipses::Axes`: semi-major axis, semi-minor axis, angle. -/
structure Axes where
  a : ℚ
  b : ℚ
  theta : ℚ
deriving Repr, DecidableEq

/-- `Axes::scale(s)` multiplies both semi-axes, preserving the angle. -/
def Axes.scale (ax : Axes) (s : ℚ) : Axes :=
  ⟨ax.a * s, ax.b * s, ax.theta⟩

/-- `Axes::getDeterminantRadius() = sqrt(a*b)`. -/
def Axes.detRadius (ax : Axes) (mm : MathModel) : ℚ :=
  mm.sqrtQ (ax.a * ax.b)

/-- The fields of `KronFluxControl` that `KronPhotometry.cc` reads. -/
structure KronFluxControl where
  fixed : Bool
  nSigmaForRadius : ℚ
  nIterForRadius : Nat
  nRadiusForFlux : ℚ
  maxSincRadius : ℚ
  enforceMinimumRadius : Bool
  minimumRadius : ℚ
  useFootprintRadius : Bool
  smoothingSigma : ℚ
deriving Repr, DecidableEq

/-- The parts of the input `SourceRecord` that `_apply` reads: centroid,
fitted shape, shape-failure flag, and the detection footprint's shape. -/
structure SourceIn where
  x : ℚ
  y : ℚ
  shape : Axes
  shapeFlag : Bool
  footprintShape : Axes
deriving Repr, DecidableEq

/-- A PSF model; `computeShape` is its only capability the pipeline needs. -/
structure PsfModel where
  shape : Axes
deriving Repr, DecidableEq

/-- The output fields written by `KronFlux`: quality flags and measured
values.  `none` stands for a field never written (NaN-initialised floats). -/
structure Source where
  flag : Bool
  edge : Bool
  badRadius : Bool
  smallRadius : Bool
  usedMinimumRadius : Bool
  usedPsfRadius : Bool
  badShape : Bool
  meas : Option ℚ
  err : Option ℚ
  radius : Option ℚ
  radiusForRadius : Option ℚ
  psfRadius : Option ℚ
deriving Repr, DecidableEq

/-- Outcome of one solver iteration's moment evaluation over the (possibly
smoothed) sub-image: the functor's `reset` raised `OutOfRangeError` because
the footprint does not fit the image; or it accumulated the sums
`(_sum, _sumR)`; or some other exception escaped the iteration body. -/
inductive IterOutcome
  | outOfRange
  | moment (sum sumR : ℚ)
  | thrown
deriving Repr, DecidableEq

/-- Exceptions that can escape `KronAperture::determine`. -/
inductive SolverError
  | outOfRange
  | badKron
  | other
deriving Repr, DecidableEq

/-- `pex::exceptions::LengthError` with its context-message stack. -/
structure LengthError where
  msgs : List String
deriving Repr, DecidableEq

/-- Exceptions that can escape `KronFlux::_apply`. -/
inductive MeasError
  | badShapeAndNoPsf
  | solverOutOfRange
  | fallbackRethrow (orig : SolverError)
  | noMinimumRadiusAndNoPsf
  | kronRadiusUnderflow
  | measureEdge (e : LengthError)
deriving Repr, DecidableEq

/-- `afw::geom::ellipses::Ellipse`: a core plus a center. -/
structure Ellipse where
  core : Axes
  center : ℚ × ℚ
deriving Repr, DecidableEq

/-- `KronAperture`: center plus axes. -/
structure KronAperture where
  center : ℚ × ℚ
  axes : Axes
deriving Repr, DecidableEq

/-- Ghost record of one moment-valid solver iteration (for stating loop
properties; `determine` itself never reads it). -/
structure IterTrace where
  entryRadius : ℚ
  trial : Axes
  ir : ℚ
  estimate : ℚ
deriving Repr, DecidableEq

/-- Result of `KronAperture::determine`: the solver outcome, the last value
written through the `radiusForRadius` out-parameter, and ghost traces of the
adopted radii and of the moment-valid iterations. -/
structure DetermineOut where
  res : Except SolverError Axes
  rfr : Option ℚ
  adopted : List ℚ
  records : List IterTrace
deriving Repr

/-- The iteration loop of `KronAperture::determine` (source lines 374-416).
Per iteration: scale the axes by `nSigmaForRadius`, write `radiusForRadius`,
evaluate the moment functor over the elliptical footprint (the oracle);
an `OutOfRangeError` is caught and breaks the loop, keeping the radius we
have; an invalid moment throws `BadKronException`; otherwise the new radius
estimate is `getIr()*sqrt(b/a)`, the loop stops if it does not exceed the
previous one, and otherwise adopts it and rescales the axes to it. -/
def determineLoop (mm : MathModel) (oracle : Nat → IterOutcome) (nSigma : ℚ) :
    Nat → Nat → Axes → ℚ → Option ℚ → DetermineOut
  | 0, _, axes, _, rfr => ⟨.ok axes, rfr, [], []⟩
  | fuel + 1, i, axes, radius0, _ =>
    let axes1 := axes.scale nSigma
    let rfr1 : Option ℚ := some (axes1.detRadius mm)
    match oracle i with
    | .outOfRange => ⟨.ok axes1, rfr1, [], []⟩
    | .thrown => ⟨.error .other, rfr1, [], []⟩
    | .moment s sR =>
      if 0 < s ∧ 0 < sR then
        let ir := sR / s
        let radius := ir * mm.sqrtQ (axes1.b / axes1.a)
        if radius ≤ radius0 then
          ⟨.ok axes1, rfr1, [], [⟨radius0, axes1, ir, radius⟩]⟩
        else
          let out := determineLoop mm oracle nSigma fuel (i + 1)
            (axes1.scale (radius / axes1.detRadius mm)) radius rfr1
          ⟨out.res, out.rfr, radius :: out.adopted, ⟨radius0, axes1, ir, radius⟩ :: out.records⟩
      else ⟨.error .badKron, rfr1, [], []⟩

/-- `KronAperture::determine` (lines 353-419): run the loop for
`nIterForRadius` iterations starting from the unscaled determinant radius. -/
def KronAperture.determine (mm : MathModel) (oracle : Nat → IterOutcome)
    (axes : Axes) (ctrl : KronFluxControl) : DetermineOut :=
  determineLoop mm oracle ctrl.nSigmaForRadius ctrl.nIterForRadius 0 axes
    (axes.detRadius mm) none

/-- `FootprintFlux` (lines 35-68): running sums of intensity and variance. -/
structure FootprintFlux where
  sum : ℚ
  sumVar : ℚ
deriving Repr, DecidableEq

/-- The per-pixel `operator()` of `FootprintFlux` (lines 49-57). -/
def FootprintFlux.visit (ff : FootprintFlux) (ival vval : ℚ) : FootprintFlux :=
  ⟨ff.sum + ival, ff.sumVar + vval⟩

/-- `FootprintFunctor::apply` driving `FootprintFlux` over a pixel list. -/
def FootprintFlux.apply (ff : FootprintFlux) (pixels : List (ℚ × ℚ)) : FootprintFlux :=
  pixels.foldl (fun acc p => acc.visit p.1 p.2) ff

/-- Context message pushed by `photometer`'s `LengthError` handler. -/
def kronFluxContextMsg : String := "Measuring Kron flux for object"

/-- `photometer` (lines 422-446): per-pixel summation over the elliptical
footprint when the semi-minor axis exceeds `maxSincRadius`, otherwise the
external sinc integrator, whose `LengthError` is rethrown with context.
`pixels` and `sinc` are the external collaborators, as functions of the
requested aperture. -/
def photometer (mm : MathModel) (maxSincRadius : ℚ)
    (pixels : Ellipse → List (ℚ × ℚ))
    (sinc : Ellipse → Except LengthError (ℚ × ℚ))
    (aperture : Ellipse) : Except LengthError (ℚ × ℚ) :=
  let axes := aperture.core
  if axes.b > maxSincRadius then
    let fluxFunctor := FootprintFlux.apply ⟨0, 0⟩ (pixels aperture)
    .ok (fluxFunctor.sum, mm.sqrtQ fluxFunctor.sumVar)
  else
    match sinc aperture with
    | .ok r => .ok r
    | .error e => .error ⟨kronFluxContextMsg :: e.msgs⟩

/-- `calculatePsfKronRadius` (lines 449-459):
`sqrt(pi/2) * hypot(psf_shape_det_radius, max(0, smoothingSigma))`. -/
def calculatePsfKronRadius (mm : MathModel) (psf : PsfModel)
    (smoothingSigma : ℚ) : ℚ :=
  let radius := psf.shape.detRadius mm
  mm.sqrtHalfPi * mm.hypotQ radius (max 0 smoothingSigma)

/-- `KronAperture::measure` (lines 461-473): photometer within a scaled
copy of the aperture's axes; the aperture itself is left untouched. -/
def KronAperture.measure (ap : KronAperture) (mm : MathModel)
    (nRadiusForFlux maxSincRadius : ℚ)
    (pixels : Ellipse → List (ℚ × ℚ))
    (sinc : Ellipse → Except LengthError (ℚ × ℚ)) : Except LengthError (ℚ × ℚ) :=
  let axes := ap.axes.scale nRadiusForFlux
  photometer mm maxSincRadius pixels sinc ⟨axes, ap.center⟩

/-- `FootprintFindMoment` (lines 175-281): center, axis ratio, the stored
cosine/sine of the orientation, and the two running sums. -/
structure FootprintFindMoment where
  xcen : ℚ
  ycen : ℚ
  ab : ℚ
  cosTheta : ℚ
  sinTheta : ℚ
  sum : ℚ
  sumR : ℚ
deriving Repr, DecidableEq

/-- The functor after construction / `reset(foot)`: both sums zero. -/
def FootprintFindMoment.mk0 (xcen ycen ab cosTheta sinTheta : ℚ) :
    FootprintFindMoment :=
  ⟨xcen, ycen, ab, cosTheta, sinTheta, 0, 0⟩

/-- `<r>` for a single square pixel about its centre (line 241). -/
def eR : ℚ := 0.38259771140356325

/-- The elliptical radius the per-pixel `operator()` assigns to pixel
`(x, y)` (lines 222-243), with the near-center replacement. -/
def FootprintFindMoment.radiusAt (m : FootprintFindMoment) (mm : MathModel)
    (x y : ℚ) : ℚ :=
  let dx := x - m.xcen
  let dy := y - m.ycen
  let du := dx * m.cosTheta + dy * m.sinTheta
  let dv := -dx * m.sinTheta + dy * m.cosTheta
  let r := mm.hypotQ du (dv * m.ab)
  if mm.hypotQ dx dy < 0.5 then
    mm.hypotQ r (eR * (1 + mm.hypotQ dx dy / mm.root2))
  else r

/-- The per-pixel accumulation (lines 246-248). -/
def FootprintFindMoment.visit (m : FootprintFindMoment) (mm : MathModel)
    (x y ival : ℚ) : FootprintFindMoment :=
  { m with sum := m.sum + ival, sumR := m.sumR + m.radiusAt mm x y * ival }

/-- `FootprintFunctor::apply` driving `FootprintFindMoment` over the pixels
`(x, y, intensity)` of the elliptical footprint. -/
def FootprintFindMoment.applyPixels (m : FootprintFindMoment) (mm : MathModel)
    (pixels : List (ℚ × ℚ × ℚ)) : FootprintFindMoment :=
  pixels.foldl (fun acc p => acc.visit mm p.1 p.2.1 p.2.2) m

/-- `getIr() = _sumR / _sum` (line 257). -/
def FootprintFindMoment.getIr (m : FootprintFindMoment) : ℚ := m.sumR / m.sum

/-- `getGood() = _sum > 0 && _sumR > 0` (line 266). -/
def FootprintFindMoment.getGood (m : FootprintFindMoment) : Bool :=
  decide (m.sum > 0) && decide (m.sumR > 0)

/-- `std::numeric_limits<double>::epsilon()`. -/
def epsD : ℚ := 1 / 2 ^ 52

/-- `KronFlux::_applyAperture` (lines 521-550): reject an underflowing
radius (flagging `badRadius`), measure, flag `edge` and failure when the
measurement hits the image edge, otherwise record flux, error and the
(unscaled) determinant radius. -/
def KronFlux.applyAperture (mm : MathModel) (ctrl : KronFluxControl)
    (pixels : Ellipse → List (ℚ × ℚ))
    (sinc : Ellipse → Except LengthError (ℚ × ℚ))
    (st : Source) (ap : KronAperture) : Except (MeasError × Source) Source :=
  if ap.axes.detRadius mm < epsD then
    .error (.kronRadiusUnderflow, { st with badRadius := true })
  else
    match ap.measure mm ctrl.nRadiusForFlux ctrl.maxSincRadius pixels sinc with
    | .error e => .error (.measureEdge e, { st with flag := true, edge := true })
    | .ok result =>
      .ok { st with meas := some result.1, err := some result.2,
                    radius := some (ap.axes.detRadius mm) }

/-- `KronFlux::_fallbackRadius` (lines 681-700): flag `badRadius`; use the
configured minimum radius if positive, else the PSF Kron radius if positive,
else re-raise the original exception with added context; the substitute
aperture is the source's own shape rescaled to the chosen radius. -/
def KronFlux.fallbackRadius (mm : MathModel) (ctrl : KronFluxControl)
    (src : SourceIn) (rkPsf : ℚ) (exc : SolverError) (st : Source) :
    Except (MeasError × Source) (KronAperture × Source) :=
  let st1 := { st with badRadius := true }
  if ctrl.minimumRadius > 0 then
    let aperture : KronAperture := ⟨(src.x, src.y), src.shape⟩
    .ok ({ aperture with
            axes := aperture.axes.scale (ctrl.minimumRadius / aperture.axes.detRadius mm) },
         { st1 with usedMinimumRadius := true })
  else if rkPsf > 0 then
    let aperture : KronAperture := ⟨(src.x, src.y), src.shape⟩
    .ok ({ aperture with
            axes := aperture.axes.scale (rkPsf / aperture.axes.detRadius mm) },
         { st1 with usedPsfRadius := true })
  else
    .error (.fallbackRethrow exc, st1)

/-- Shape selection in `_apply` (lines 581-591): the source's fitted shape
when its shape flag is clear; otherwise the PSF shape (recording that the
substitution happened), or failure when there is no PSF either. -/
def selectShape (psf : Option PsfModel) (src : SourceIn) : Option (Axes × Bool) :=
  if src.shapeFlag = false then some (src.shape, false)
  else
    match psf with
    | none => none
    | some p => some (p.shape, true)

/-- Footprint-based widening in `_apply` (lines 592-605): treat the
footprint as a disk (scale its shape by `sqrt(2)`) and widen the axes when
the footprint radius exceeds what `nSigmaForRadius` times the shape covers. -/
def widenAxes (mm : MathModel) (ctrl : KronFluxControl) (src : SourceIn)
    (axes : Axes) : Axes :=
  if ctrl.useFootprintRadius then
    let footprintAxes := src.footprintShape.scale mm.root2
    let radius0 := axes.detRadius mm
    let footRadius := footprintAxes.detRadius mm
    if footRadius > radius0 * ctrl.nSigmaForRadius then
      axes.scale ((footRadius / ctrl.nSigmaForRadius) / axes.detRadius mm)
    else axes
  else axes

/-- Aperture acquisition in `_apply` (lines 607-626): reuse the source's
stored shape in fixed mode, otherwise run the solver; an out-of-range
failure flags `edge` and the overall failure and propagates; a
`BadKronException` routes to the fallback; any other exception marks the
measurement as fundamentally compromised (`bad`) and routes to the
fallback.  Returns the aperture, the `radiusForRadius` diagnostic, and the
`bad` increment. -/
def solveAperture (mm : MathModel) (ctrl : KronFluxControl)
    (oracle : Nat → IterOutcome) (src : SourceIn) (center : ℚ × ℚ)
    (rkPsf : ℚ) (axes : Axes) (st : Source) :
    Except (MeasError × Source) (KronAperture × Option ℚ × Bool × Source) :=
  if ctrl.fixed then
    .ok (⟨(src.x, src.y), src.shape⟩, none, false, st)
  else
    let out := KronAperture.determine mm oracle axes ctrl
    match out.res with
    | .ok ax => .ok (⟨center, ax⟩, out.rfr, false, st)
    | .error .outOfRange =>
      .error (.solverOutOfRange, { st with edge := true, flag := true })
    | .error .badKron =>
      match KronFlux.fallbackRadius mm ctrl src rkPsf .badKron st with
      | .error e => .error e
      | .ok (ap, st') => .ok (ap, out.rfr, false, st')
    | .error .other =>
      match KronFlux.fallbackRadius mm ctrl src rkPsf .other st with
      | .error e => .error e
      | .ok (ap, st') => .ok (ap, out.rfr, true, st')

/-- The common tail of the minimum-radius enforcement (lines 648-651):
`if (newRadius != rad) { aperture->getAxes().scale(newRadius/rad);
source.set(smallRadius, true); }`. -/
def enforceTail (_mm : MathModel) (ap : KronAperture) (rad newRadius : ℚ)
    (st1 : Source) : Except (MeasError × Source) (KronAperture × Source) :=
  if newRadius ≠ rad then
    .ok ({ ap with axes := ap.axes.scale (newRadius / rad) },
         { st1 with smallRadius := true })
  else .ok (ap, st1)

/-- Minimum-radius enforcement in `_apply` (lines 632-652): with
enforcement enabled, raise the radius to the configured minimum when that
is positive, else (requiring a PSF) to the PSF Kron radius, whenever the
current radius is smaller; a raise rescales the aperture and flags
`smallRadius`. -/
def enforceMinimum (mm : MathModel) (ctrl : KronFluxControl)
    (psfPresent : Bool) (rkPsf : ℚ) (ap : KronAperture) (st : Source) :
    Except (MeasError × Source) (KronAperture × Source) :=
  let rad := ap.axes.detRadius mm
  if ctrl.enforceMinimumRadius then
    if ctrl.minimumRadius > 0 then
      if rad < ctrl.minimumRadius then
        enforceTail mm ap rad ctrl.minimumRadius
          { st with usedMinimumRadius := true }
      else enforceTail mm ap rad rad st
    else if psfPresent = false then
      .error (.noMinimumRadiusAndNoPsf, st)
    else if rad < rkPsf then
      enforceTail mm ap rad rkPsf { st with usedPsfRadius := true }
    else enforceTail mm ap rad rad st
  else .ok (ap, st)

/-- Lines 573-576 of `_apply`: `R_K_psf = -1`, overwritten with
`calculatePsfKronRadius` when the exposure has a PSF. -/
def psfKronRadiusOr (mm : MathModel) (psf : Option PsfModel) (sigma : ℚ) : ℚ :=
  match psf with
  | some p => calculatePsfKronRadius mm p sigma
  | none => -1

/-- `KronFlux::_apply` (lines 552-658): initialise the flags (failure until
proven otherwise), compute the PSF Kron radius, select and possibly widen
the shape, acquire the aperture (fixed / solver / fallback), enforce the
minimum radius, photometer, and record the diagnostics, ending with the
overall failure flag set to the `bad` indicator. -/
def KronFlux.apply (mm : MathModel) (ctrl : KronFluxControl)
    (oracle : Nat → IterOutcome)
    (pixels : Ellipse → List (ℚ × ℚ))
    (sinc : Ellipse → Except LengthError (ℚ × ℚ))
    (psf : Option PsfModel) (src : SourceIn) (center : ℚ × ℚ)
    (st0 : Source) : Except (MeasError × Source) Source :=
  let st := { st0 with flag := true, badRadius := false, smallRadius := false,
                       badShape := false, usedMinimumRadius := false,
                       usedPsfRadius := false }
  let rkPsf : ℚ := psfKronRadiusOr mm psf ctrl.smoothingSigma
  match selectShape psf src with
  | none => .error (.badShapeAndNoPsf, st)
  | some (axes0, substituted) =>
    let st1 := if substituted then { st with badShape := true } else st
    let axes1 := widenAxes mm ctrl src axes0
    match solveAperture mm ctrl oracle src center rkPsf axes1 st1 with
    | .error e => .error e
    | .ok (aperture, rfr, solverBad, st2) =>
      match enforceMinimum mm ctrl psf.isSome rkPsf aperture st2 with
      | .error e => .error e
      | .ok (aperture2, st3) =>
        match KronFlux.applyAperture mm ctrl pixels sinc st3 aperture2 with
        | .error e => .error e
        | .ok st4 =>
          .ok { st4 with radiusForRadius := rfr, psfRadius := some rkPsf,
                         flag := substituted || solverBad }

/-! ### Spec-side definition for the refinement claim about the moment
estimator (C6).  This one definition follows the spec's words (§4.1), to be
compared with `FootprintFindMoment.radiusAt`, which follows the source. -/

/-- Written from the spec: rotate the offset `(x-x0, y-y0)` into the
ellipse's principal frame `(u,v)` via theta; elliptical radius
`hypot(u, v*ab)`; for pixels within 0.5 px of the center replace `r` with
`hypot(r, e*(1 + hypot(dx,dy)/sqrt 2))` where `e = 0.38259771140356325`. -/
def specMomentRadius (mm : MathModel) (x0 y0 ab cosT sinT x y : ℚ) : ℚ :=
  let dx := x - x0
  let dy := y - y0
  let u := dx * cosT + dy * sinT
  let v := -dx * sinT + dy * cosT
  let r := mm.hypotQ u (v * ab)
  if mm.hypotQ dx dy < 0.5 then
    mm.hypotQ r (eR * (1 + mm.hypotQ dx dy / mm.root2))
  else r

/-! ### Sample inputs used by the witnesses -/

/-- A concrete math model: square roots and hypotenuses collapse to 1. -/
def mmW : MathModel := ⟨fun _ => 1, fun _ _ => 1, 2, 1⟩

/-- A concrete control: direct mode, one solver iteration, growth 2, no
minimum radius, no enforcement, no smoothing. -/
def ctrlW : KronFluxControl := ⟨false, 2, 1, 1, 0, false, 0, false, 0⟩

/-- The same control with a positive configured minimum radius. -/
def ctrlMinW : KronFluxControl := ⟨false, 2, 1, 1, 0, true, 3, false, 0⟩

/-- A concrete source with a valid unit-circle shape at the origin. -/
def srcW : SourceIn := ⟨0, 0, ⟨1, 1, 0⟩, false, ⟨1, 1, 0⟩⟩

/-- A concrete PSF model. -/
def psfW : PsfModel := ⟨⟨1, 1, 0⟩⟩

/-- A blank output record. -/
def stW : Source :=
  ⟨false, false, false, false, false, false, false, none, none, none, none, none⟩

/-- The output record of the concrete `_applyAperture` run in the C9
witness. -/
def sW9 : Source := { stW with meas := some 5, err := some 1, radius := some 1 }

/-- The concrete aperture of the C9 witness. -/
def apW : KronAperture := ⟨(0, 0), ⟨2, 2, 0⟩⟩

/-- A pixel oracle: every footprint holds one pixel of intensity 5 and
variance 4. -/
def pixW : Ellipse → List (ℚ × ℚ) := fun _ => [(5, 4)]

/-- A sinc oracle that succeeds with flux 7 and error 3. -/
def sincW : Ellipse → Except LengthError (ℚ × ℚ) := fun _ => .ok (7, 3)

/-- A sinc oracle that fails with a `LengthError`. -/
def sincErrW : Ellipse → Except LengthError (ℚ × ℚ) := fun _ => .error ⟨["edge"]⟩

/-- A moment oracle whose footprint hits the image edge every iteration. -/
def oracleEdgeW : Nat → IterOutcome := fun _ => .outOfRange

/-- A moment oracle returning zero sums: the degenerate-moment condition. -/
def oracleBadW : Nat → IterOutcome := fun _ => .moment 0 0

/-- A moment oracle returning a healthy moment every iteration. -/
def oracleMomW : Nat → IterOutcome := fun _ => .moment 1 10

/-- A concrete source whose shape measurement failed. -/
def srcBadW : SourceIn := ⟨0, 0, ⟨1, 1, 0⟩, true, ⟨1, 1, 0⟩⟩

/-- The record produced by the degenerate-moment fallback scenario
(`oracleBadW` over `srcW`, PSF present, no minimum radius). -/
def sWfull : Source :=
  { stW with flag := false, badRadius := true, usedPsfRadius := true,
             meas := some 5, err := some 1, radius := some 1,
             radiusForRadius := some 1, psfRadius := some 2 }

/-- The record produced by the invalid-shape scenario (`srcBadW`, PSF
shape substituted, healthy solver run). -/
def sWbad : Source :=
  { stW with flag := true, badShape := true, meas := some 5, err := some 1,
             radius := some 1, radiusForRadius := some 1, psfRadius := some 2 }

/-! ### Derived predicates used to state flag invariants -/

/-- The two radius-floor flags can only have been set under mutually
exclusive conditions on the fixed configuration. -/
def FlagsConsistent (ctrl : KronFluxControl) (st : Source) : Prop :=
  (st.usedMinimumRadius = true → 0 < ctrl.minimumRadius) ∧
  (st.usedPsfRadius = true → ¬ 0 < ctrl.minimumRadius)

/-- `FlagsConsistent` for the record carried by a measurement outcome. -/
def OutcomeFC (ctrl : KronFluxControl) :
    Except (MeasError × Source) Source → Prop
  | .ok s => FlagsConsistent ctrl s
  | .error (_, s) => FlagsConsistent ctrl s

/-- `FlagsConsistent` for the record carried by a fallback / enforcement
stage outcome. -/
def StagePairFC (ctrl : KronFluxControl) :
    Except (MeasError × Source) (KronAperture × Source) → Prop
  | .ok (_, s) => FlagsConsistent ctrl s
  | .error (_, s) => FlagsConsistent ctrl s

/-- `FlagsConsistent` for the record carried by the aperture-acquisition
stage outcome. -/
def StageSolveFC (ctrl : KronFluxControl) :
    Except (MeasError × Source) (KronAperture × Option ℚ × Bool × Source) → Prop
  | .ok (_, _, _, s) => FlagsConsistent ctrl s
  | .error (_, s) => FlagsConsistent ctrl s

/-! ### Helper lemmas -/

theorem footprintFlux_apply_eq (ps : List (ℚ × ℚ)) (ff : FootprintFlux) :
    FootprintFlux.apply ff ps =
      ⟨ff.sum + (ps.map Prod.fst).sum, ff.sumVar + (ps.map Prod.snd).sum⟩ := by
  induction ps generalizing ff with
  | nil => simp [FootprintFlux.apply]
  | cons p t ih =>
    have hstep : FootprintFlux.apply ff (p :: t) =
        FootprintFlux.apply (ff.visit p.1 p.2) t := rfl
    rw [hstep, ih]
    simp [FootprintFlux.visit, add_assoc]

theorem findMoment_visit_radiusAt (mm : MathModel) (m : FootprintFindMoment)
    (x y ival : ℚ) :
    (m.visit mm x y ival).radiusAt mm = m.radiusAt mm := by
  funext u v
  simp [FootprintFindMoment.visit, FootprintFindMoment.radiusAt]

theorem findMoment_apply_eq (mm : MathModel) (ps : List (ℚ × ℚ × ℚ))
    (m : FootprintFindMoment) :
    FootprintFindMoment.applyPixels m mm ps =
      { m with
          sum := m.sum + (ps.map (fun p => p.2.2)).sum,
          sumR := m.sumR +
            (ps.map (fun p => m.radiusAt mm p.1 p.2.1 * p.2.2)).sum } := by
  induction ps generalizing m with
  | nil => simp [FootprintFindMoment.applyPixels]
  | cons p t ih =>
    have hstep : FootprintFindMoment.applyPixels m mm (p :: t) =
        FootprintFindMoment.applyPixels (m.visit mm p.1 p.2.1 p.2.2) mm t := rfl
    rw [hstep, ih]
    simp [FootprintFindMoment.visit, FootprintFindMoment.radiusAt, add_assoc]

/-! ### Axes lemmas -/

theorem Axes.scale_one (ax : Axes) : ax.scale 1 = ax := by
  simp [Axes.scale]

theorem Axes.scale_scale (ax : Axes) (s t : ℚ) :
    (ax.scale s).scale t = ax.scale (s * t) := by
  simp [Axes.scale, mul_assoc]

theorem Axes.scale_ratio (ax : Axes) (t : ℚ) (ht : t ≠ 0) :
    (ax.scale t).b / (ax.scale t).a = ax.b / ax.a := by
  simp only [Axes.scale]
  rw [mul_comm ax.b t, mul_comm ax.a t, mul_div_mul_left _ _ ht]

/-! ### The solver loop never lets an out-of-range condition escape -/

theorem determineLoop_ne_outOfRange (mm : MathModel) (oracle : Nat → IterOutcome)
    (nSigma : ℚ) :
    ∀ (fuel i : Nat) (axes : Axes) (radius0 : ℚ) (rfr : Option ℚ),
      (determineLoop mm oracle nSigma fuel i axes radius0 rfr).res ≠
        .error .outOfRange := by
  intro fuel
  induction fuel with
  | zero =>
    intro i axes radius0 rfr
    simp [determineLoop]
  | succ n ih =>
    intro i axes radius0 rfr
    simp only [determineLoop]
    split
    · simp
    · simp
    · split
      · split
        · simp
        · simpa using ih (i + 1) _ _ _
      · simp

/-! ### C1 — the out-of-range condition never escapes the solver -/

/-- C1 (code bug, lines 396-403): when the moment functor raises its
out-of-range condition at the very first solver iteration, the catch block
adds context to the caught exception but never rethrows it: `determine`
breaks out of the loop and returns the once-scaled axes as a *successful*
result.  More generally the solver never surfaces an out-of-range failure
at all, so the edge/failure handler in `_apply` (lines 612-618) is
unreachable from the moment functor's out-of-range condition. -/
theorem c1_edge_not_propagated (mm : MathModel) (oracle : Nat → IterOutcome)
    (axes : Axes) (ctrl : KronFluxControl)
    (h0 : oracle 0 = .outOfRange) (hn : 0 < ctrl.nIterForRadius) :
    (KronAperture.determine mm oracle axes ctrl).res =
      .ok (axes.scale ctrl.nSigmaForRadius) ∧
    ∀ (oracle2 : Nat → IterOutcome) (axes2 : Axes),
      (KronAperture.determine mm oracle2 axes2 ctrl).res ≠
        .error .outOfRange := by
  constructor
  · rcases Nat.exists_eq_add_of_lt hn with ⟨k, hk⟩
    simp only [KronAperture.determine, hk, Nat.zero_add, determineLoop, h0]
  · intro oracle2 axes2
    exact determineLoop_ne_outOfRange mm oracle2 ctrl.nSigmaForRadius _ _ _ _ _

theorem c1_edge_not_propagated_witness :
    oracleEdgeW 0 = .outOfRange ∧ 0 < ctrlW.nIterForRadius ∧
    ((KronAperture.determine mmW oracleEdgeW srcW.shape ctrlW).res =
        .ok (srcW.shape.scale ctrlW.nSigmaForRadius) ∧
      ∀ (oracle2 : Nat → IterOutcome) (axes2 : Axes),
        (KronAperture.determine mmW oracle2 axes2 ctrlW).res ≠
          .error .outOfRange) :=
  ⟨rfl, by norm_num [ctrlW],
    c1_edge_not_propagated mmW oracleEdgeW srcW.shape ctrlW rfl (by norm_num [ctrlW])⟩

/-! ### C4 — solver loop invariants -/

theorem determineLoop_trace (mm : MathModel) (oracle : Nat → IterOutcome)
    (nSigma : ℚ) (axes0 : Axes)
    (hsq : ∀ x : ℚ, 0 < x → 0 < mm.sqrtQ x)
    (ha : 0 < axes0.a) (hb : 0 < axes0.b) (hn : 0 < nSigma) :
    ∀ (fuel i : Nat) (axes : Axes) (radius0 : ℚ) (rfr : Option ℚ) (sc : ℚ),
      0 < sc → axes = axes0.scale sc → 0 < radius0 →
      (∀ rec ∈ (determineLoop mm oracle nSigma fuel i axes radius0 rfr).records,
          (∃ t : ℚ, 0 < t ∧ rec.trial = axes0.scale t) ∧
          rec.estimate = rec.ir * mm.sqrtQ (axes0.b / axes0.a)) ∧
      List.Chain (· < ·) radius0
        (determineLoop mm oracle nSigma fuel i axes radius0 rfr).adopted ∧
      List.Chain' (fun p q : IterTrace =>
          p.estimate = q.entryRadius ∧ p.entryRadius < p.estimate ∧
          q.trial = (p.trial.scale (p.estimate / p.trial.detRadius mm)).scale nSigma)
        (determineLoop mm oracle nSigma fuel i axes radius0 rfr).records ∧
      (determineLoop mm oracle nSigma fuel i axes radius0 rfr).records.length ≤ fuel ∧
      (∀ q ∈ (determineLoop mm oracle nSigma fuel i axes radius0 rfr).records.head?,
          q.entryRadius = radius0 ∧ q.trial = axes.scale nSigma) := by
  intro fuel
  induction fuel with
  | zero =>
    intro i axes radius0 rfr sc hsc hax hr0
    simp [determineLoop]
  | succ n ih =>
    intro i axes radius0 rfr sc hsc hax hr0
    have hs1 : 0 < sc * nSigma := mul_pos hsc hn
    have hax1 : axes.scale nSigma = axes0.scale (sc * nSigma) := by
      rw [hax, Axes.scale_scale]
    have hratio : (axes.scale nSigma).b / (axes.scale nSigma).a =
        axes0.b / axes0.a := by
      rw [hax1]
      exact Axes.scale_ratio axes0 (sc * nSigma) (ne_of_gt hs1)
    simp only [determineLoop]
    split
    · simp
    · simp
    · rename_i s sR heqo
      set A1 := axes.scale nSigma with hA1
      set R := sR / s * mm.sqrtQ (A1.b / A1.a) with hR
      set D := A1.detRadius mm with hD
      split
      · split
        · -- the new estimate does not exceed the previous one: converge
          rename_i hg hle
          refine ⟨?_, ?_, ?_, ?_, ?_⟩
          · intro rec hrec
            simp only [List.mem_singleton] at hrec
            subst hrec
            exact ⟨⟨sc * nSigma, hs1, hax1⟩, by rw [hR, hratio]⟩
          · simp
          · simp
          · simp
          · intro q hq
            simp only [List.head?_cons, Option.mem_some_iff] at hq
            subst hq
            exact ⟨rfl, rfl⟩
        · -- adopt the new estimate and continue
          rename_i hg hgt
          have hrlt : radius0 < R := not_le.mp hgt
          have hrpos : 0 < R := lt_trans hr0 hrlt
          have hdpos : 0 < D := by
            rw [hD, hax1]
            exact hsq _ (mul_pos (mul_pos ha hs1) (mul_pos hb hs1))
          have hsc' : 0 < sc * nSigma * (R / D) :=
            mul_pos hs1 (div_pos hrpos hdpos)
          have hax2 : A1.scale (R / D) = axes0.scale (sc * nSigma * (R / D)) := by
            rw [hax1, Axes.scale_scale]
          obtain ⟨ih1, ih2, ih3, ih4, ih5⟩ :=
            ih (i + 1) (A1.scale (R / D)) R (some D)
              (sc * nSigma * (R / D)) hsc' hax2 hrpos
          refine ⟨?_, ?_, ?_, ?_, ?_⟩
          · intro rec hrec
            simp only [List.mem_cons] at hrec
            rcases hrec with hrec | hrec
            · subst hrec
              exact ⟨⟨sc * nSigma, hs1, hax1⟩, by rw [hR, hratio]⟩
            · exact ih1 rec hrec
          · simp only [List.chain_cons]
            exact ⟨hrlt, ih2⟩
          · simp only [List.chain'_cons']
            refine ⟨?_, ih3⟩
            intro q hq
            obtain ⟨hq1, hq2⟩ := ih5 q hq
            refine ⟨hq1.symm, hrlt, ?_⟩
            rw [hq2, hD]
          · simpa using Nat.succ_le_succ ih4
          · intro q hq
            simp only [List.head?_cons, Option.mem_some_iff] at hq
            subst hq
            exact ⟨rfl, rfl⟩
      · simp

/-- C4: in every solver iteration whose moment is valid, the new radius
estimate is the measured mean elliptical radius times `sqrt(b/a)` of the
trial shape, whose axis ratio equals the original shape's (only uniform
scalings are applied); every non-final estimate strictly exceeded the
radius it replaced and the next iteration's trial ellipse is the previous
one rescaled to the adopted estimate and regrown; the loop runs at most
`nIterForRadius` times; and the adopted radii are strictly increasing. -/
theorem c4_solver_iterations (mm : MathModel) (oracle : Nat → IterOutcome)
    (axes0 : Axes) (ctrl : KronFluxControl)
    (hsq : ∀ x : ℚ, 0 < x → 0 < mm.sqrtQ x)
    (ha : 0 < axes0.a) (hb : 0 < axes0.b) (hn : 0 < ctrl.nSigmaForRadius) :
    (∀ rec ∈ (KronAperture.determine mm oracle axes0 ctrl).records,
        rec.estimate = rec.ir * mm.sqrtQ (rec.trial.b / rec.trial.a) ∧
        rec.trial.b / rec.trial.a = axes0.b / axes0.a) ∧
    List.Chain (· < ·) (axes0.detRadius mm)
      (KronAperture.determine mm oracle axes0 ctrl).adopted ∧
    List.Chain' (fun p q : IterTrace =>
        p.estimate = q.entryRadius ∧ p.entryRadius < p.estimate ∧
        q.trial = (p.trial.scale (p.estimate / p.trial.detRadius mm)).scale
          ctrl.nSigmaForRadius)
      (KronAperture.determine mm oracle axes0 ctrl).records ∧
    (KronAperture.determine mm oracle axes0 ctrl).records.length ≤
      ctrl.nIterForRadius := by
  have h0 : 0 < axes0.detRadius mm := hsq _ (mul_pos ha hb)
  obtain ⟨h1, h2, h3, h4, _⟩ :=
    determineLoop_trace mm oracle ctrl.nSigmaForRadius axes0 hsq ha hb hn
      ctrl.nIterForRadius 0 axes0 (axes0.detRadius mm) none 1 one_pos
      (Axes.scale_one axes0).symm h0
  refine ⟨?_, h2, h3, h4⟩
  intro rec hrec
  obtain ⟨⟨t, ht, htrial⟩, hest⟩ := h1 rec hrec
  have hratio : rec.trial.b / rec.trial.a = axes0.b / axes0.a := by
    rw [htrial]
    exact Axes.scale_ratio axes0 t (ne_of_gt ht)
  exact ⟨by rw [hest, hratio], hratio⟩

theorem c4_solver_iterations_witness :
    (∀ x : ℚ, 0 < x → 0 < mmW.sqrtQ x) ∧
    (0 < (Axes.mk 1 1 0).a ∧ 0 < (Axes.mk 1 1 0).b ∧ 0 < ctrlW.nSigmaForRadius) ∧
    ((∀ rec ∈ (KronAperture.determine mmW oracleMomW ⟨1, 1, 0⟩ ctrlW).records,
        rec.estimate = rec.ir * mmW.sqrtQ (rec.trial.b / rec.trial.a) ∧
        rec.trial.b / rec.trial.a = (Axes.mk 1 1 0).b / (Axes.mk 1 1 0).a) ∧
      List.Chain (· < ·) (Axes.detRadius ⟨1, 1, 0⟩ mmW)
        (KronAperture.determine mmW oracleMomW ⟨1, 1, 0⟩ ctrlW).adopted ∧
      List.Chain' (fun p q : IterTrace =>
          p.estimate = q.entryRadius ∧ p.entryRadius < p.estimate ∧
          q.trial = (p.trial.scale (p.estimate / p.trial.detRadius mmW)).scale
            ctrlW.nSigmaForRadius)
        (KronAperture.determine mmW oracleMomW ⟨1, 1, 0⟩ ctrlW).records ∧
      (KronAperture.determine mmW oracleMomW ⟨1, 1, 0⟩ ctrlW).records.length ≤
        ctrlW.nIterForRadius) :=
  ⟨fun x _ => by norm_num [mmW], ⟨by norm_num, by norm_num, by norm_num [ctrlW]⟩,
    c4_solver_iterations mmW oracleMomW ⟨1, 1, 0⟩ ctrlW
      (fun x _ => by norm_num [mmW]) (by norm_num) (by norm_num)
      (by norm_num [ctrlW])⟩

/-! ### C2 — fallback radius policy -/

/-- C2: `_fallbackRadius` uses a positive configured minimum radius
(flagging `usedMinimumRadius`) regardless of PSF availability; otherwise a
positive PSF Kron radius (flagging `usedPsfRadius`); otherwise it re-raises
the original exception.  Every fallback flags `badRadius` and rescales the
source's own shape to the chosen radius. -/
theorem c2_fallback_policy (mm : MathModel) (ctrl : KronFluxControl)
    (src : SourceIn) (rkPsf : ℚ) (exc : SolverError) (st : Source) :
    (0 < ctrl.minimumRadius →
        KronFlux.fallbackRadius mm ctrl src rkPsf exc st =
          .ok (⟨(src.x, src.y),
                  src.shape.scale (ctrl.minimumRadius / src.shape.detRadius mm)⟩,
               { st with badRadius := true, usedMinimumRadius := true })) ∧
    (¬ 0 < ctrl.minimumRadius → 0 < rkPsf →
        KronFlux.fallbackRadius mm ctrl src rkPsf exc st =
          .ok (⟨(src.x, src.y),
                  src.shape.scale (rkPsf / src.shape.detRadius mm)⟩,
               { st with badRadius := true, usedPsfRadius := true })) ∧
    (¬ 0 < ctrl.minimumRadius → ¬ 0 < rkPsf →
        KronFlux.fallbackRadius mm ctrl src rkPsf exc st =
          .error (.fallbackRethrow exc, { st with badRadius := true })) := by
  refine ⟨fun h => ?_, fun h h' => ?_, fun h h' => ?_⟩ <;>
    simp [KronFlux.fallbackRadius, h, *]

theorem c2_fallback_policy_witness :
    (0 < ctrlMinW.minimumRadius ∧
      KronFlux.fallbackRadius mmW ctrlMinW srcW 0 .badKron stW =
        .ok (⟨(srcW.x, srcW.y),
                srcW.shape.scale (ctrlMinW.minimumRadius / srcW.shape.detRadius mmW)⟩,
             { stW with badRadius := true, usedMinimumRadius := true })) ∧
    (¬ 0 < ctrlW.minimumRadius ∧ 0 < (2 : ℚ) ∧
      KronFlux.fallbackRadius mmW ctrlW srcW 2 .badKron stW =
        .ok (⟨(srcW.x, srcW.y), srcW.shape.scale (2 / srcW.shape.detRadius mmW)⟩,
             { stW with badRadius := true, usedPsfRadius := true })) ∧
    (¬ 0 < ctrlW.minimumRadius ∧ ¬ 0 < (0 : ℚ) ∧
      KronFlux.fallbackRadius mmW ctrlW srcW 0 .other stW =
        .error (.fallbackRethrow .other, { stW with badRadius := true })) := by
  refine ⟨⟨by norm_num [ctrlMinW], ?_⟩, ⟨by norm_num [ctrlW], by norm_num, ?_⟩,
          ⟨by norm_num [ctrlW], by norm_num, ?_⟩⟩
  · exact (c2_fallback_policy mmW ctrlMinW srcW 0 .badKron stW).1 (by norm_num [ctrlMinW])
  · exact (c2_fallback_policy mmW ctrlW srcW 2 .badKron stW).2.1
      (by norm_num [ctrlW]) (by norm_num)
  · exact (c2_fallback_policy mmW ctrlW srcW 0 .other stW).2.2
      (by norm_num [ctrlW]) (by norm_num)

/-! ### C7 — minimum-radius enforcement -/

/-- C7: with enforcement enabled, a non-positive configured minimum and no
PSF is a hard failure; otherwise the radius is raised to the floor (the
configured minimum when positive, else the PSF Kron radius) exactly when it
is strictly smaller, rescaling the aperture and flagging `smallRadius`; a
radius at or above the floor is left unchanged with no flag. -/
theorem c7_minimum_enforcement (mm : MathModel) (ctrl : KronFluxControl)
    (psfPresent : Bool) (rkPsf : ℚ) (ap : KronAperture) (st : Source)
    (henf : ctrl.enforceMinimumRadius = true) :
    (¬ 0 < ctrl.minimumRadius → psfPresent = false →
        enforceMinimum mm ctrl psfPresent rkPsf ap st =
          .error (.noMinimumRadiusAndNoPsf, st)) ∧
    (0 < ctrl.minimumRadius → ap.axes.detRadius mm < ctrl.minimumRadius →
        enforceMinimum mm ctrl psfPresent rkPsf ap st =
          .ok ({ ap with
                   axes := ap.axes.scale (ctrl.minimumRadius / ap.axes.detRadius mm) },
               { st with usedMinimumRadius := true, smallRadius := true })) ∧
    (0 < ctrl.minimumRadius → ¬ ap.axes.detRadius mm < ctrl.minimumRadius →
        enforceMinimum mm ctrl psfPresent rkPsf ap st = .ok (ap, st)) ∧
    (¬ 0 < ctrl.minimumRadius → psfPresent = true →
        ap.axes.detRadius mm < rkPsf →
        enforceMinimum mm ctrl psfPresent rkPsf ap st =
          .ok ({ ap with axes := ap.axes.scale (rkPsf / ap.axes.detRadius mm) },
               { st with usedPsfRadius := true, smallRadius := true })) ∧
    (¬ 0 < ctrl.minimumRadius → psfPresent = true →
        ¬ ap.axes.detRadius mm < rkPsf →
        enforceMinimum mm ctrl psfPresent rkPsf ap st = .ok (ap, st)) := by
  refine ⟨fun h h' => ?_, fun h h' => ?_, fun h h' => ?_, fun h h' h'' => ?_,
          fun h h' h'' => ?_⟩
  · simp [enforceMinimum, enforceTail, henf, h, h']
  · simp [enforceMinimum, enforceTail, henf, h, h', ne_of_gt h']
  · simp [enforceMinimum, enforceTail, henf, h, h']
  · simp [enforceMinimum, enforceTail, henf, h, h', h'', ne_of_gt h'']
  · simp [enforceMinimum, enforceTail, henf, h, h', h'']

theorem c7_minimum_enforcement_witness :
    (0 < ctrlMinW.minimumRadius ∧
      Axes.detRadius (Axes.mk 1 1 0) mmW < ctrlMinW.minimumRadius ∧
      enforceMinimum mmW ctrlMinW true 2 ⟨(0, 0), ⟨1, 1, 0⟩⟩ stW =
        .ok ({ KronAperture.mk (0, 0) ⟨1, 1, 0⟩ with
                 axes := Axes.scale ⟨1, 1, 0⟩
                   (ctrlMinW.minimumRadius / Axes.detRadius (Axes.mk 1 1 0) mmW) },
             { stW with usedMinimumRadius := true, smallRadius := true })) ∧
    (¬ 0 < ctrlW.minimumRadius ∧
      enforceMinimum mmW { ctrlW with enforceMinimumRadius := true } false 2
          ⟨(0, 0), ⟨1, 1, 0⟩⟩ stW = .error (.noMinimumRadiusAndNoPsf, stW)) := by
  refine ⟨⟨by norm_num [ctrlMinW], by norm_num [ctrlMinW, Axes.detRadius, mmW], ?_⟩,
          ⟨by norm_num [ctrlW], ?_⟩⟩
  · exact (c7_minimum_enforcement mmW ctrlMinW true 2 ⟨(0, 0), ⟨1, 1, 0⟩⟩ stW
      (by norm_num [ctrlMinW])).2.1 (by norm_num [ctrlMinW])
      (by norm_num [ctrlMinW, Axes.detRadius, mmW])
  · exact (c7_minimum_enforcement mmW { ctrlW with enforceMinimumRadius := true }
      false 2 ⟨(0, 0), ⟨1, 1, 0⟩⟩ stW rfl).1 (by norm_num [ctrlW]) rfl

/-! ### C5 — flux-integration dispatch -/

/-- C5: `photometer` sums pixel intensity and variance over the elliptical
footprint and returns `(sum, sqrt(sumVar))` when the semi-minor axis
strictly exceeds `maxSincRadius`; otherwise it returns the sinc
integrator's result, rethrowing its `LengthError` with added context. -/
theorem c5_flux_dispatch (mm : MathModel) (maxSincRadius : ℚ)
    (pixels : Ellipse → List (ℚ × ℚ))
    (sinc : Ellipse → Except LengthError (ℚ × ℚ)) (ap : Ellipse) :
    (maxSincRadius < ap.core.b →
        photometer mm maxSincRadius pixels sinc ap =
          .ok (((pixels ap).map Prod.fst).sum,
               mm.sqrtQ ((pixels ap).map Prod.snd).sum)) ∧
    (¬ maxSincRadius < ap.core.b → ∀ r, sinc ap = .ok r →
        photometer mm maxSincRadius pixels sinc ap = .ok r) ∧
    (¬ maxSincRadius < ap.core.b → ∀ e, sinc ap = .error e →
        photometer mm maxSincRadius pixels sinc ap =
          .error ⟨kronFluxContextMsg :: e.msgs⟩) := by
  refine ⟨fun h => ?_, fun h r hr => ?_, fun h e he => ?_⟩
  · simp [photometer, footprintFlux_apply_eq, h]
  · simp [photometer, h, hr]
  · simp [photometer, h, he]

theorem c5_flux_dispatch_witness :
    ((0 : ℚ) < 2 ∧
      photometer mmW 0 pixW sincW ⟨⟨2, 2, 0⟩, (0, 0)⟩ =
        .ok (((pixW ⟨⟨2, 2, 0⟩, (0, 0)⟩).map Prod.fst).sum,
             mmW.sqrtQ ((pixW ⟨⟨2, 2, 0⟩, (0, 0)⟩).map Prod.snd).sum)) ∧
    (¬ (3 : ℚ) < 2 ∧ sincW ⟨⟨2, 2, 0⟩, (0, 0)⟩ = .ok (7, 3) ∧
      photometer mmW 3 pixW sincW ⟨⟨2, 2, 0⟩, (0, 0)⟩ = .ok (7, 3)) ∧
    (¬ (3 : ℚ) < 2 ∧ sincErrW ⟨⟨2, 2, 0⟩, (0, 0)⟩ = .error ⟨["edge"]⟩ ∧
      photometer mmW 3 pixW sincErrW ⟨⟨2, 2, 0⟩, (0, 0)⟩ =
        .error ⟨kronFluxContextMsg :: ["edge"]⟩) := by
  refine ⟨⟨by norm_num, ?_⟩, ⟨by norm_num, rfl, ?_⟩, ⟨by norm_num, rfl, ?_⟩⟩
  · exact (c5_flux_dispatch mmW 0 pixW sincW ⟨⟨2, 2, 0⟩, (0, 0)⟩).1 (by norm_num)
  · exact (c5_flux_dispatch mmW 3 pixW sincW ⟨⟨2, 2, 0⟩, (0, 0)⟩).2.1
      (by norm_num) (7, 3) rfl
  · exact (c5_flux_dispatch mmW 3 pixW sincErrW ⟨⟨2, 2, 0⟩, (0, 0)⟩).2.2
      (by norm_num) ⟨["edge"]⟩ rfl

/-! ### C6 — moment estimator arithmetic -/

/-- C6: the per-pixel elliptical radius matches the spec formula (rotation
into the ellipse frame, `hypot(u, v*ab)`, and the near-center replacement
with `e = 0.38259771140356325`); the mean radius is
`sum(r*I)/sum(I)`; and the measurement is good iff both sums are positive. -/
theorem c6_moment_estimator (mm : MathModel) :
    (∀ (m : FootprintFindMoment) (x y : ℚ),
        m.radiusAt mm x y =
          specMomentRadius mm m.xcen m.ycen m.ab m.cosTheta m.sinTheta x y) ∧
    (∀ (xcen ycen ab cosT sinT : ℚ) (ps : List (ℚ × ℚ × ℚ)),
        (FootprintFindMoment.applyPixels (.mk0 xcen ycen ab cosT sinT) mm ps).getIr =
          (ps.map (fun p =>
            (FootprintFindMoment.mk0 xcen ycen ab cosT sinT).radiusAt mm
              p.1 p.2.1 * p.2.2)).sum /
          (ps.map (fun p => p.2.2)).sum) ∧
    (∀ (xcen ycen ab cosT sinT : ℚ) (ps : List (ℚ × ℚ × ℚ)),
        (FootprintFindMoment.applyPixels (.mk0 xcen ycen ab cosT sinT) mm ps).getGood
            = true ↔
          0 < (ps.map (fun p => p.2.2)).sum ∧
          0 < (ps.map (fun p =>
            (FootprintFindMoment.mk0 xcen ycen ab cosT sinT).radiusAt mm
              p.1 p.2.1 * p.2.2)).sum) := by
  refine ⟨fun m x y => ?_, fun xcen ycen ab cosT sinT ps => ?_,
          fun xcen ycen ab cosT sinT ps => ?_⟩
  · simp [FootprintFindMoment.radiusAt, specMomentRadius]
  · rw [findMoment_apply_eq]
    simp [FootprintFindMoment.mk0, FootprintFindMoment.getIr]
  · rw [findMoment_apply_eq]
    simp [FootprintFindMoment.mk0, FootprintFindMoment.getGood]

/-! ### C9 — flux measurement does not disturb the aperture -/

/-- C9: `measure` photometers a copy of the axes scaled by
`nRadiusForFlux`, leaving the aperture value untouched, and
`_applyAperture` records the determinant radius of the *unscaled* aperture
alongside the flux pair obtained from the scaled one. -/
theorem c9_aperture_unchanged (mm : MathModel) (ctrl : KronFluxControl)
    (pixels : Ellipse → List (ℚ × ℚ))
    (sinc : Ellipse → Except LengthError (ℚ × ℚ))
    (st : Source) (ap : KronAperture) (s : Source)
    (h : KronFlux.applyAperture mm ctrl pixels sinc st ap = .ok s) :
    ap.measure mm ctrl.nRadiusForFlux ctrl.maxSincRadius pixels sinc =
      photometer mm ctrl.maxSincRadius pixels sinc
        ⟨ap.axes.scale ctrl.nRadiusForFlux, ap.center⟩ ∧
    s.radius = some (ap.axes.detRadius mm) ∧
    ∃ r, photometer mm ctrl.maxSincRadius pixels sinc
        ⟨ap.axes.scale ctrl.nRadiusForFlux, ap.center⟩ = .ok r ∧
      s.meas = some r.1 ∧ s.err = some r.2 := by
  refine ⟨rfl, ?_⟩
  unfold KronFlux.applyAperture at h
  by_cases hrad : ap.axes.detRadius mm < epsD
  · rw [if_pos hrad] at h
    exact absurd h (by simp)
  · rw [if_neg hrad] at h
    rcases hm : ap.measure mm ctrl.nRadiusForFlux ctrl.maxSincRadius pixels sinc
      with e | r
    · rw [hm] at h
      simp at h
    · rw [hm] at h
      obtain rfl := Except.ok.inj h
      exact ⟨rfl, r, hm, rfl, rfl⟩

theorem c9_aperture_unchanged_witness :
    KronFlux.applyAperture mmW ctrlW pixW sincW stW apW = .ok sW9 ∧
    (apW.measure mmW ctrlW.nRadiusForFlux ctrlW.maxSincRadius pixW sincW =
      photometer mmW ctrlW.maxSincRadius pixW sincW
        ⟨apW.axes.scale ctrlW.nRadiusForFlux, apW.center⟩ ∧
    sW9.radius = some (apW.axes.detRadius mmW) ∧
    ∃ r, photometer mmW ctrlW.maxSincRadius pixW sincW
        ⟨apW.axes.scale ctrlW.nRadiusForFlux, apW.center⟩ = .ok r ∧
      sW9.meas = some r.1 ∧ sW9.err = some r.2) := by
  have h : KronFlux.applyAperture mmW ctrlW pixW sincW stW apW = .ok sW9 := by
    norm_num [KronFlux.applyAperture, KronAperture.measure, photometer,
      FootprintFlux.apply, FootprintFlux.visit, Axes.scale, Axes.detRadius,
      epsD, mmW, ctrlW, stW, apW, pixW, sincW, sW9]
  exact ⟨h, c9_aperture_unchanged mmW ctrlW pixW sincW stW apW sW9 h⟩

/-! ### C3 — the two radius-floor flags are mutually exclusive -/

theorem flagsConsistent_of_false {ctrl : KronFluxControl} {st : Source}
    (h1 : st.usedMinimumRadius = false) (h2 : st.usedPsfRadius = false) :
    FlagsConsistent ctrl st := by
  simp [FlagsConsistent, h1, h2]

theorem fallbackRadius_fc (mm : MathModel) (ctrl : KronFluxControl)
    (src : SourceIn) (rkPsf : ℚ) (exc : SolverError) (st : Source)
    (h : FlagsConsistent ctrl st) :
    StagePairFC ctrl (KronFlux.fallbackRadius mm ctrl src rkPsf exc st) := by
  unfold KronFlux.fallbackRadius
  split_ifs with h1 h2 <;>
    simp_all [StagePairFC, FlagsConsistent]

theorem enforceTail_fc (mm : MathModel) (ctrl : KronFluxControl)
    (ap : KronAperture) (rad newRadius : ℚ) (st1 : Source)
    (h : FlagsConsistent ctrl st1) :
    StagePairFC ctrl (enforceTail mm ap rad newRadius st1) := by
  unfold enforceTail
  split <;> simp_all [StagePairFC, FlagsConsistent]

theorem enforceMinimum_fc (mm : MathModel) (ctrl : KronFluxControl)
    (psfPresent : Bool) (rkPsf : ℚ) (ap : KronAperture) (st : Source)
    (h : FlagsConsistent ctrl st) :
    StagePairFC ctrl (enforceMinimum mm ctrl psfPresent rkPsf ap st) := by
  obtain ⟨hmin, hpsf⟩ := h
  simp only [enforceMinimum]
  split_ifs with he h1 h2 h3 h4
  · exact enforceTail_fc mm ctrl ap _ _ _ ⟨fun _ => h1, hpsf⟩
  · exact enforceTail_fc mm ctrl ap _ _ _ ⟨hmin, hpsf⟩
  · simp only [StagePairFC]
    exact ⟨hmin, hpsf⟩
  · exact enforceTail_fc mm ctrl ap _ _ _ ⟨hmin, fun _ => by simpa using h1⟩
  · exact enforceTail_fc mm ctrl ap _ _ _ ⟨hmin, hpsf⟩
  · simp only [StagePairFC]
    exact ⟨hmin, hpsf⟩

theorem solveAperture_fc (mm : MathModel) (ctrl : KronFluxControl)
    (oracle : Nat → IterOutcome) (src : SourceIn) (center : ℚ × ℚ)
    (rkPsf : ℚ) (axes : Axes) (st : Source)
    (h : FlagsConsistent ctrl st) :
    StageSolveFC ctrl (solveAperture mm ctrl oracle src center rkPsf axes st) := by
  obtain ⟨hmin, hpsf⟩ := h
  unfold solveAperture
  split
  · simp only [StageSolveFC]
    exact ⟨hmin, hpsf⟩
  · rcases hres : (KronAperture.determine mm oracle axes ctrl).res with er | ax
    · rcases er with _ | _ | _
      · simp only [hres, StageSolveFC]
        exact ⟨hmin, hpsf⟩
      · have hf := fallbackRadius_fc mm ctrl src rkPsf .badKron st ⟨hmin, hpsf⟩
        rcases hfb : KronFlux.fallbackRadius mm ctrl src rkPsf .badKron st
          with ⟨e1, es⟩ | ⟨ap, st'⟩
        · rw [hfb] at hf
          simp only [hres, hfb, StageSolveFC]
          simpa [StagePairFC] using hf
        · rw [hfb] at hf
          simp only [hres, hfb, StageSolveFC]
          simpa [StagePairFC] using hf
      · have hf := fallbackRadius_fc mm ctrl src rkPsf .other st ⟨hmin, hpsf⟩
        rcases hfb : KronFlux.fallbackRadius mm ctrl src rkPsf .other st
          with ⟨e1, es⟩ | ⟨ap, st'⟩
        · rw [hfb] at hf
          simp only [hres, hfb, StageSolveFC]
          simpa [StagePairFC] using hf
        · rw [hfb] at hf
          simp only [hres, hfb, StageSolveFC]
          simpa [StagePairFC] using hf
    · simp only [hres, StageSolveFC]
      exact ⟨hmin, hpsf⟩

theorem applyAperture_fc (mm : MathModel) (ctrl : KronFluxControl)
    (pixels : Ellipse → List (ℚ × ℚ))
    (sinc : Ellipse → Except LengthError (ℚ × ℚ))
    (st : Source) (ap : KronAperture) (h : FlagsConsistent ctrl st) :
    OutcomeFC ctrl (KronFlux.applyAperture mm ctrl pixels sinc st ap) := by
  unfold KronFlux.applyAperture
  split
  · simpa [OutcomeFC, FlagsConsistent] using h
  · split <;> simpa [OutcomeFC, FlagsConsistent] using h

theorem apply_fc (mm : MathModel) (ctrl : KronFluxControl)
    (oracle : Nat → IterOutcome) (pixels : Ellipse → List (ℚ × ℚ))
    (sinc : Ellipse → Except LengthError (ℚ × ℚ)) (psf : Option PsfModel)
    (src : SourceIn) (center : ℚ × ℚ) (st0 : Source) :
    OutcomeFC ctrl (KronFlux.apply mm ctrl oracle pixels sinc psf src center st0) := by
  simp only [KronFlux.apply]
  rcases hsel : selectShape psf src with _ | ⟨axes0, substituted⟩
  · simp only [hsel, OutcomeFC]
    exact flagsConsistent_of_false rfl rfl
  · simp only [hsel]
    have hst1 : FlagsConsistent ctrl
        (if substituted = true then
          { st0 with flag := true, badRadius := false, smallRadius := false,
                     badShape := true, usedMinimumRadius := false,
                     usedPsfRadius := false }
        else
          { st0 with flag := true, badRadius := false, smallRadius := false,
                     badShape := false, usedMinimumRadius := false,
                     usedPsfRadius := false }) := by
      split <;> exact flagsConsistent_of_false rfl rfl
    have hsolve := solveAperture_fc mm ctrl oracle src center
      (psfKronRadiusOr mm psf ctrl.smoothingSigma)
      (widenAxes mm ctrl src axes0)
      (if substituted = true then
        { st0 with flag := true, badRadius := false, smallRadius := false,
                   badShape := true, usedMinimumRadius := false,
                   usedPsfRadius := false }
      else
        { st0 with flag := true, badRadius := false, smallRadius := false,
                   badShape := false, usedMinimumRadius := false,
                   usedPsfRadius := false }) hst1
    rcases hsv : solveAperture mm ctrl oracle src center
        (psfKronRadiusOr mm psf ctrl.smoothingSigma)
        (widenAxes mm ctrl src axes0)
        (if substituted = true then
          { st0 with flag := true, badRadius := false, smallRadius := false,
                     badShape := true, usedMinimumRadius := false,
                     usedPsfRadius := false }
        else
          { st0 with flag := true, badRadius := false, smallRadius := false,
                     badShape := false, usedMinimumRadius := false,
                     usedPsfRadius := false })
      with ⟨e1, es⟩ | ⟨ap, rfr, bd, st2⟩
    · rw [hsv] at hsolve
      simp only [hsv, OutcomeFC]
      simpa [StageSolveFC] using hsolve
    · rw [hsv] at hsolve
      have hst2 : FlagsConsistent ctrl st2 := by
        simpa [StageSolveFC] using hsolve
      simp only [hsv]
      have henf := enforceMinimum_fc mm ctrl psf.isSome
        (psfKronRadiusOr mm psf ctrl.smoothingSigma) ap st2 hst2
      rcases henfq : enforceMinimum mm ctrl psf.isSome
          (psfKronRadiusOr mm psf ctrl.smoothingSigma) ap st2
        with ⟨e1, es⟩ | ⟨ap2, st3⟩
      · rw [henfq] at henf
        simp only [henfq, OutcomeFC]
        simpa [StagePairFC] using henf
      · rw [henfq] at henf
        have hst3 : FlagsConsistent ctrl st3 := by
          simpa [StagePairFC] using henf
        simp only [henfq]
        have happ := applyAperture_fc mm ctrl pixels sinc st3 ap2 hst3
        rcases happq : KronFlux.applyAperture mm ctrl pixels sinc st3 ap2
          with ⟨e1, es⟩ | st4
        · rw [happq] at happ
          simp only [happq, OutcomeFC]
          simpa [OutcomeFC] using happ
        · rw [happq] at happ
          have hst4 : FlagsConsistent ctrl st4 := by
            simpa [OutcomeFC] using happ
          simp only [happq, OutcomeFC]
          exact hst4

/-- C3: on every path through `_apply` — normal completion or exception —
at most one of `usedMinimumRadius` and `usedPsfRadius` is set on the output
record (both start false at entry, and the two flags are only ever set
under contradictory conditions on the configured minimum radius). -/
theorem c3_floor_flags_exclusive (mm : MathModel) (ctrl : KronFluxControl)
    (oracle : Nat → IterOutcome) (pixels : Ellipse → List (ℚ × ℚ))
    (sinc : Ellipse → Except LengthError (ℚ × ℚ)) (psf : Option PsfModel)
    (src : SourceIn) (center : ℚ × ℚ) (st0 : Source) :
    (∀ s, KronFlux.apply mm ctrl oracle pixels sinc psf src center st0 = .ok s →
        ¬ (s.usedMinimumRadius = true ∧ s.usedPsfRadius = true)) ∧
    (∀ e s, KronFlux.apply mm ctrl oracle pixels sinc psf src center st0 =
          .error (e, s) →
        ¬ (s.usedMinimumRadius = true ∧ s.usedPsfRadius = true)) := by
  have H := apply_fc mm ctrl oracle pixels sinc psf src center st0
  constructor
  · intro s hs hboth
    rw [hs] at H
    simp only [OutcomeFC, FlagsConsistent] at H
    exact H.2 hboth.2 (H.1 hboth.1)
  · intro e s hs hboth
    rw [hs] at H
    simp only [OutcomeFC, FlagsConsistent] at H
    exact H.2 hboth.2 (H.1 hboth.1)

theorem applyW_eval :
    KronFlux.apply mmW ctrlW oracleBadW pixW sincW (some psfW) srcW (0, 0) stW =
      .ok sWfull := by
  norm_num [KronFlux.apply, selectShape, widenAxes, solveAperture,
    KronAperture.determine, determineLoop, KronFlux.fallbackRadius,
    enforceMinimum, enforceTail, KronFlux.applyAperture, KronAperture.measure,
    photometer, FootprintFlux.apply, FootprintFlux.visit,
    calculatePsfKronRadius, psfKronRadiusOr, Axes.scale, Axes.detRadius, epsD,
    mmW, ctrlW, srcW, psfW, stW, sWfull, oracleBadW, pixW, sincW]

theorem c3_floor_flags_exclusive_witness :
    KronFlux.apply mmW ctrlW oracleBadW pixW sincW (some psfW) srcW (0, 0) stW =
      .ok sWfull ∧
    ¬ (sWfull.usedMinimumRadius = true ∧ sWfull.usedPsfRadius = true) :=
  ⟨applyW_eval,
    (c3_floor_flags_exclusive mmW ctrlW oracleBadW pixW sincW (some psfW) srcW
        (0, 0) stW).1 sWfull applyW_eval⟩

/-! ### State-extraction helpers for the end-to-end claims -/

theorem enforceTail_ok_state (mm : MathModel) (ap : KronAperture)
    (rad nr : ℚ) (st1 : Source) (ap' : KronAperture) (st' : Source)
    (h : enforceTail mm ap rad nr st1 = .ok (ap', st')) :
    st' = st1 ∨ st' = { st1 with smallRadius := true } := by
  unfold enforceTail at h
  split at h <;> simp only [Except.ok.injEq, Prod.mk.injEq] at h
  · exact Or.inr h.2.symm
  · exact Or.inl h.2.symm

theorem enforceMinimum_ok_state (mm : MathModel) (ctrl : KronFluxControl)
    (psfPresent : Bool) (rkPsf : ℚ) (ap : KronAperture) (st : Source)
    (ap' : KronAperture) (st' : Source)
    (h : enforceMinimum mm ctrl psfPresent rkPsf ap st = .ok (ap', st')) :
    st'.flag = st.flag ∧ st'.edge = st.edge ∧ st'.badRadius = st.badRadius ∧
    st'.badShape = st.badShape ∧ st'.meas = st.meas ∧ st'.err = st.err ∧
    st'.radius = st.radius ∧
    (st.usedMinimumRadius = true → st'.usedMinimumRadius = true) ∧
    (st.usedPsfRadius = true → st'.usedPsfRadius = true) := by
  simp only [enforceMinimum] at h
  split_ifs at h
  all_goals first
    | (rcases enforceTail_ok_state _ _ _ _ _ _ _ h with rfl | rfl <;> simp)
    | (simp only [Except.ok.injEq, Prod.mk.injEq] at h
       obtain ⟨-, rfl⟩ := h
       simp)

theorem applyAperture_ok_state (mm : MathModel) (ctrl : KronFluxControl)
    (pixels : Ellipse → List (ℚ × ℚ))
    (sinc : Ellipse → Except LengthError (ℚ × ℚ))
    (st : Source) (ap : KronAperture) (s : Source)
    (h : KronFlux.applyAperture mm ctrl pixels sinc st ap = .ok s) :
    ∃ r : ℚ × ℚ,
      s = { st with meas := some r.1, err := some r.2,
                    radius := some (ap.axes.detRadius mm) } := by
  unfold KronFlux.applyAperture at h
  by_cases hrad : ap.axes.detRadius mm < epsD
  · rw [if_pos hrad] at h
    exact absurd h (by simp)
  · rw [if_neg hrad] at h
    rcases hm : ap.measure mm ctrl.nRadiusForFlux ctrl.maxSincRadius pixels sinc
      with e | r
    · rw [hm] at h
      simp at h
    · rw [hm] at h
      exact ⟨r, (Except.ok.inj h).symm⟩

theorem selectShape_shapeFlag (psf : Option PsfModel) (src : SourceIn)
    (ax : Axes) (b : Bool) (h : selectShape psf src = some (ax, b)) :
    b = src.shapeFlag := by
  unfold selectShape at h
  split at h
  · rename_i hsf
    simp only [Option.some.injEq, Prod.mk.injEq] at h
    rw [← h.2, hsf]
  · rename_i hsf
    rcases psf with _ | p
    · simp at h
    · simp only [Option.some.injEq, Prod.mk.injEq] at h
      rw [← h.2]
      cases hb : src.shapeFlag
      · exact absurd hb hsf
      · rfl

theorem solveAperture_bad (mm : MathModel) (ctrl : KronFluxControl)
    (oracle : Nat → IterOutcome) (src : SourceIn) (center : ℚ × ℚ)
    (rkPsf : ℚ) (axes : Axes) (st : Source) (ap : KronAperture)
    (rfr : Option ℚ) (bd : Bool) (st' : Source)
    (h : solveAperture mm ctrl oracle src center rkPsf axes st =
      .ok (ap, rfr, bd, st')) :
    bd = true ↔ (ctrl.fixed = false ∧
      (KronAperture.determine mm oracle axes ctrl).res = .error .other) := by
  unfold solveAperture at h
  split at h
  · rename_i hfix
    simp only [Except.ok.injEq, Prod.mk.injEq] at h
    obtain ⟨-, -, hbd, -⟩ := h
    simp [← hbd, hfix]
  · rename_i hfix
    have hfix' : ctrl.fixed = false := by
      revert hfix
      cases ctrl.fixed <;> simp
    rcases hres : (KronAperture.determine mm oracle axes ctrl).res with er | ax
    · rcases er with _ | _ | _
      · simp only [hres] at h
        simp at h
      · simp only [hres] at h
        rcases hfb : KronFlux.fallbackRadius mm ctrl src rkPsf .badKron st
          with ⟨e1, es⟩ | ⟨apf, stf⟩
        · simp only [hfb] at h
          simp at h
        · simp only [hfb] at h
          simp only [Except.ok.injEq, Prod.mk.injEq] at h
          obtain ⟨-, -, hbd, -⟩ := h
          simp [← hbd, hres]
      · simp only [hres] at h
        rcases hfb : KronFlux.fallbackRadius mm ctrl src rkPsf .other st
          with ⟨e1, es⟩ | ⟨apf, stf⟩
        · simp only [hfb] at h
          simp at h
        · simp only [hfb] at h
          simp only [Except.ok.injEq, Prod.mk.injEq] at h
          obtain ⟨-, -, hbd, -⟩ := h
          simp [← hbd, hres, hfix']
    · simp only [hres] at h
      simp only [Except.ok.injEq, Prod.mk.injEq] at h
      obtain ⟨-, -, hbd, -⟩ := h
      simp [← hbd, hres]

/-! ### C8 — the degenerate-moment path recovers through the PSF radius -/

/-- C8: a direct-mode measurement with a valid shape, no configured
minimum radius, a PSF whose Kron radius is positive, and a solver that
raised the recoverable degenerate-moment condition, completes (when flux
integration succeeds) with `usedPsfRadius` and `badRadius` set, a recorded
flux pair, and the overall failure flag cleared. -/
theorem c8_degenerate_moment_fallback (mm : MathModel) (ctrl : KronFluxControl)
    (oracle : Nat → IterOutcome) (pixels : Ellipse → List (ℚ × ℚ))
    (sinc : Ellipse → Except LengthError (ℚ × ℚ)) (p : PsfModel)
    (src : SourceIn) (center : ℚ × ℚ) (st0 : Source) (s : Source)
    (hshape : src.shapeFlag = false)
    (hfixed : ctrl.fixed = false)
    (hmin : ¬ 0 < ctrl.minimumRadius)
    (hrk : 0 < calculatePsfKronRadius mm p ctrl.smoothingSigma)
    (hsolve : (KronAperture.determine mm oracle
        (widenAxes mm ctrl src src.shape) ctrl).res = .error .badKron)
    (hres : KronFlux.apply mm ctrl oracle pixels sinc (some p) src center st0 =
      .ok s) :
    s.usedPsfRadius = true ∧ s.badRadius = true ∧ s.flag = false ∧
    s.meas.isSome = true ∧ s.err.isSome = true := by
  simp only [KronFlux.apply, selectShape, psfKronRadiusOr, solveAperture,
    KronFlux.fallbackRadius, hshape, hfixed, hsolve, hmin, hrk,
    Bool.false_eq_true, if_false, if_true, eq_self_iff_true, not_false_iff,
    Option.isSome_some, gt_iff_lt, ite_true, ite_false, reduceCtorEq] at hres
  split at hres
  · simp at hres
  · rename_i ap2 st3 heq2
    split at hres
    · simp at hres
    · rename_i st4 heq3
      obtain rfl := Except.ok.inj hres
      have h9 := enforceMinimum_ok_state _ _ _ _ _ _ _ _ heq2
      obtain ⟨r, rfl⟩ := applyAperture_ok_state _ _ _ _ _ _ _ heq3
      refine ⟨?_, ?_, ?_, ?_, ?_⟩
      · simpa using h9.2.2.2.2.2.2.2.2 rfl
      · simpa using h9.2.2.1
      · simp
      · simp
      · simp

theorem detBadW_eval :
    (KronAperture.determine mmW oracleBadW (widenAxes mmW ctrlW srcW srcW.shape)
        ctrlW).res = .error .badKron := by
  norm_num [KronAperture.determine, determineLoop, widenAxes, ctrlW, mmW, srcW,
    oracleBadW, Axes.scale, Axes.detRadius]

theorem c8_degenerate_moment_fallback_witness :
    (srcW.shapeFlag = false ∧ ctrlW.fixed = false ∧
      ¬ 0 < ctrlW.minimumRadius ∧
      0 < calculatePsfKronRadius mmW psfW ctrlW.smoothingSigma ∧
      (KronAperture.determine mmW oracleBadW
          (widenAxes mmW ctrlW srcW srcW.shape) ctrlW).res = .error .badKron ∧
      KronFlux.apply mmW ctrlW oracleBadW pixW sincW (some psfW) srcW (0, 0)
          stW = .ok sWfull) ∧
    (sWfull.usedPsfRadius = true ∧ sWfull.badRadius = true ∧
      sWfull.flag = false ∧ sWfull.meas.isSome = true ∧
      sWfull.err.isSome = true) :=
  ⟨⟨rfl, rfl, by norm_num [ctrlW],
     by norm_num [calculatePsfKronRadius, mmW, psfW, ctrlW, Axes.detRadius],
     detBadW_eval, applyW_eval⟩,
   c8_degenerate_moment_fallback mmW ctrlW oracleBadW pixW sincW psfW srcW
     (0, 0) stW sWfull rfl rfl (by norm_num [ctrlW])
     (by norm_num [calculatePsfKronRadius, mmW, psfW, ctrlW, Axes.detRadius])
     detBadW_eval applyW_eval⟩

/-! ### C10 — the overall failure flag on completed measurements -/

/-- C10: a direct-mode measurement that completes flux integration ends
with the overall failure flag true exactly when the `bad` indicator was
raised: the input shape was invalid (PSF shape substituted), or the solver
failed with a general exception other than the degenerate-moment
condition; a flux pair is recorded either way. -/
theorem c10_overall_failure_iff (mm : MathModel) (ctrl : KronFluxControl)
    (oracle : Nat → IterOutcome) (pixels : Ellipse → List (ℚ × ℚ))
    (sinc : Ellipse → Except LengthError (ℚ × ℚ)) (psf : Option PsfModel)
    (src : SourceIn) (center : ℚ × ℚ) (st0 : Source) (s : Source)
    (ax : Axes) (b : Bool)
    (hsel : selectShape psf src = some (ax, b))
    (hres : KronFlux.apply mm ctrl oracle pixels sinc psf src center st0 =
      .ok s) :
    ((s.flag = true) ↔
      (src.shapeFlag = true ∨
        (ctrl.fixed = false ∧
          (KronAperture.determine mm oracle (widenAxes mm ctrl src ax)
              ctrl).res = .error .other))) ∧
    s.meas.isSome = true := by
  have hb := selectShape_shapeFlag psf src ax b hsel
  simp only [KronFlux.apply, hsel] at hres
  cases b with
  | false =>
    simp only [Bool.false_eq_true, if_false] at hres
    split at hres
    · simp at hres
    · rename_i ap rfr bd st2 heq1
      split at hres
      · simp at hres
      · rename_i ap2 st3 heq2
        split at hres
        · simp at hres
        · rename_i st4 heq3
          obtain rfl := Except.ok.inj hres
          have hbd := solveAperture_bad _ _ _ _ _ _ _ _ _ _ _ _ heq1
          obtain ⟨r, rfl⟩ := applyAperture_ok_state _ _ _ _ _ _ _ heq3
          constructor
          · simp only [Bool.false_or]
            rw [hbd, ← hb]
            simp
          · simp
  | true =>
    simp only [if_true] at hres
    split at hres
    · simp at hres
    · rename_i ap rfr bd st2 heq1
      split at hres
      · simp at hres
      · rename_i ap2 st3 heq2
        split at hres
        · simp at hres
        · rename_i st4 heq3
          obtain rfl := Except.ok.inj hres
          obtain ⟨r, rfl⟩ := applyAperture_ok_state _ _ _ _ _ _ _ heq3
          constructor
          · simp [← hb]
          · simp

theorem applyWbad_eval :
    KronFlux.apply mmW ctrlW oracleMomW pixW sincW (some psfW) srcBadW (0, 0)
      stW = .ok sWbad := by
  norm_num [KronFlux.apply, selectShape, widenAxes, solveAperture,
    KronAperture.determine, determineLoop, KronFlux.fallbackRadius,
    enforceMinimum, enforceTail, KronFlux.applyAperture, KronAperture.measure,
    photometer, FootprintFlux.apply, FootprintFlux.visit,
    calculatePsfKronRadius, psfKronRadiusOr, Axes.scale, Axes.detRadius, epsD,
    mmW, ctrlW, srcBadW, psfW, stW, sWbad, oracleMomW, pixW, sincW]

theorem c10_overall_failure_iff_witness :
    (selectShape (some psfW) srcBadW = some (psfW.shape, true) ∧
      KronFlux.apply mmW ctrlW oracleMomW pixW sincW (some psfW) srcBadW (0, 0)
        stW = .ok sWbad) ∧
    (((sWbad.flag = true) ↔
        (srcBadW.shapeFlag = true ∨
          (ctrlW.fixed = false ∧
            (KronAperture.determine mmW oracleMomW
                (widenAxes mmW ctrlW srcBadW psfW.shape) ctrlW).res =
              .error .other))) ∧
      sWbad.meas.isSome = true) :=
  ⟨⟨by norm_num [selectShape, srcBadW, psfW], applyWbad_eval⟩,
   c10_overall_failure_iff mmW ctrlW oracleMomW pixW sincW (some psfW) srcBadW
     (0, 0) stW sWbad psfW.shape true
     (by norm_num [selectShape, srcBadW, psfW]) applyWbad_eval⟩

end KronPhotometry
